import Mathlib

/-!
Shallow embedding of the budget-app backend (src/server.js): the budgets and
transactions tables, the transaction aggregation used by the two read
endpoints, and the budget/transaction lifecycle handlers.  Monetary values
are modelled as rationals (the store's arbitrary-precision numerics);
nullable columns as `Option ℚ`; the JavaScript distinction between an
omitted field (`undefined`), an explicit `null`, and a numeric value as a
small inductive type where a handler distinguishes them.
-/

namespace BudgetApp

/-- A row of the `budgets` table.  Column names follow the source schema
(`kuukausi` = month, `vuosi` = year, `suunniteltu_tulot` = planned income,
`toteutunut_tulot` = recorded income, `suunniteltu_menot` = planned
expenses, `toteutunut_menot` = recorded expenses); all four money columns
are nullable. -/
structure Budget where
  id : Nat
  user_id : Nat
  kuukausi : Nat
  vuosi : Nat
  suunniteltu_tulot : Option ℚ
  toteutunut_tulot : Option ℚ
  suunniteltu_menot : Option ℚ
  toteutunut_menot : Option ℚ
deriving Repr, DecidableEq

/-- A row of the `transactions` table (`tyyppi` = type, with the two
recognized values being the strings "tulo" = income and "meno" = expense;
`summa` = amount, `kuvaus` = description). -/
structure Transaction where
  id : Nat
  budget_id : Nat
  user_id : Nat
  tyyppi : String
  summa : ℚ
  kuvaus : String
deriving Repr, DecidableEq

/-- The persistent store: the two tables the handlers under scrutiny touch. -/
structure DB where
  budgets : List Budget
  transactions : List Transaction
deriving Repr, DecidableEq

/-- The observable shape of a handler's JSON reply: the HTTP status, the
optional `success` boolean field, and the optional `error` message field
(`none` when the key is absent from the JSON body). -/
structure Response where
  status : Nat
  success : Option Bool
  error : Option String
deriving Repr, DecidableEq

/-- `SUM(CASE WHEN t.tyyppi = ty THEN t.summa ELSE 0 END)` over the
transactions with `budget_id = bid`, with `COALESCE(..., 0)`: the sum of the
amounts of the matching transactions, `0` when there are none. -/
def txSum (db : DB) (bid : Nat) (ty : String) : ℚ :=
  ((db.transactions.filter (fun t => t.budget_id == bid && t.tyyppi == ty)).map
    Transaction.summa).sum

/-- One element of the `GET /api/budgets` JSON array.  The SQL aliases
`toteutunut_tulot AS income`, `suunniteltu_menot AS expenses` and
`toteutunut_menot AS actual_expenses`; the JavaScript spread then overrides
`actual_expenses` with a computed value, so the raw aliased column is kept
here as `row_actual_expenses` (it is what `budget.actual_expenses` denotes
inside the `total` expression, which reads the pre-spread row object). -/
structure ListRow where
  id : Nat
  user_id : Nat
  month : Nat
  year : Nat
  income : Option ℚ
  expenses : Option ℚ
  row_actual_expenses : Option ℚ
  transaction_income : ℚ
  transaction_expenses : ℚ
  actual_income : ℚ
  actual_expenses : ℚ
  total : ℚ
deriving Repr, DecidableEq

/-- The row mapper of the `GET /api/budgets` handler: `Number(x || 0)` on a
nullable column is `Option.getD 0`; note that `total` subtracts
`Number(budget.actual_expenses || 0)` — the raw `toteutunut_menot` column of
the row — and not the freshly computed `actual_expenses` field. -/
def listBudgetRow (db : DB) (b : Budget) : ListRow :=
  let transaction_income := txSum db b.id "tulo"
  let transaction_expenses := txSum db b.id "meno"
  { id := b.id
    user_id := b.user_id
    month := b.kuukausi
    year := b.vuosi
    income := b.toteutunut_tulot
    expenses := b.suunniteltu_menot
    row_actual_expenses := b.toteutunut_menot
    transaction_income := transaction_income
    transaction_expenses := transaction_expenses
    actual_income := b.toteutunut_tulot.getD 0 + transaction_income
    actual_expenses := b.suunniteltu_menot.getD 0 + transaction_expenses
    total := (b.toteutunut_tulot.getD 0 + transaction_income) -
             (b.toteutunut_menot.getD 0 + transaction_expenses) }

/-- `GET /api/budgets`: the caller's budgets (`WHERE b.user_id = $1`),
ordered by month ascending (`ORDER BY b.kuukausi ASC`), each mapped through
the reconciliation above. -/
def getBudgets (db : DB) (uid : Nat) : List ListRow :=
  (((db.budgets.filter (fun b => b.user_id == uid)).insertionSort
      (fun a b => a.kuukausi ≤ b.kuukausi)).map (listBudgetRow db))

/-- The JSON object of `GET /api/budgets/:id`.  The SQL aliases
`suunniteltu_tulot AS income`, `toteutunut_tulot AS actual_income`,
`suunniteltu_menot AS planned_expenses`, `toteutunut_menot AS
actual_expenses` and `suunniteltu_menot AS expenses`; the JavaScript spread
then overrides `actual_income` and `actual_expenses` with the computed
values, so only the final values of those two keys appear here.  The
response has no balance/total key. -/
structure DetailView where
  id : Nat
  user_id : Nat
  month : Nat
  year : Nat
  income : Option ℚ
  planned_expenses : Option ℚ
  expenses : Option ℚ
  transaction_expenses : ℚ
  transaction_income : ℚ
  actual_expenses : ℚ
  actual_income : ℚ
deriving Repr, DecidableEq

/-- The reconciliation of the detail handler: `actual_expenses =
Number(budget.expenses || 0) + Number(transaction_expenses || 0)` and
`actual_income = Number(budget.actual_income || 0) +
Number(transaction_income || 0)`, where `budget.expenses` is
`suunniteltu_menot` and `budget.actual_income` is `toteutunut_tulot`. -/
def detailView (db : DB) (b : Budget) : DetailView :=
  { id := b.id
    user_id := b.user_id
    month := b.kuukausi
    year := b.vuosi
    income := b.suunniteltu_tulot
    planned_expenses := b.suunniteltu_menot
    expenses := b.suunniteltu_menot
    transaction_expenses := txSum db b.id "meno"
    transaction_income := txSum db b.id "tulo"
    actual_expenses := b.suunniteltu_menot.getD 0 + txSum db b.id "meno"
    actual_income := b.toteutunut_tulot.getD 0 + txSum db b.id "tulo" }

/-- `GET /api/budgets/:id`: `SELECT ... WHERE id = $1 AND user_id = $2`,
`none` when no row matches (the handler then answers 404 with
`error = "Budjettia ei löytynyt tai sinulla ei ole oikeuksia nähdä sitä"`
and no `success` key). -/
def getBudgetById (db : DB) (uid : Nat) (id : Nat) : Option DetailView :=
  ((db.budgets.filter (fun b => b.id == id && b.user_id == uid)).head?).map
    (detailView db)

/-- A numeric field of the create-budget body as JavaScript sees it:
absent (`undefined`), the empty string, or a parseable numeric value. -/
inductive JNum where
  | undef
  | empty
  | val (q : ℚ)
deriving Repr, DecidableEq

/-- `x !== undefined && x !== "" ? parseFloat(x) : null`: the value stored
for `suunniteltu_tulot` / `toteutunut_tulot` at creation. -/
def JNum.toStored : JNum → Option ℚ
  | .undef => none
  | .empty => none
  | .val q => some q

/-- One value of the client-supplied expense breakdown object: falsy
(empty string / null), a truthy non-numeric string, or a numeric value. -/
inductive EVal where
  | emptyVal
  | nonNumeric
  | numVal (q : ℚ)
deriving Repr, DecidableEq

/-- `v ? parseFloat(v) || 0 : 0`: a falsy value gives 0, a non-numeric
string parses to NaN and `|| 0` gives 0, a numeric value gives itself
(a numeric 0 is falsy but still yields 0). -/
def EVal.toNumber : EVal → ℚ
  | .emptyVal => 0
  | .nonNumeric => 0
  | .numVal q => q

/-- `Number.prototype.toFixed(2)` on the breakdown sum, read back with
`parseFloat`: rounding to two decimal places (nearest, ties up). -/
def toFixed2 (q : ℚ) : ℚ :=
  ((round (q * 100) : ℤ) : ℚ) / 100

/-- `Object.values(expenses).map(v => v ? parseFloat(v) || 0 : 0)
.reduce((a, b) => a + b, 0).toFixed(2)`: the derived planned-expenses
total of the create handler. -/
def plannedExpensesOf (expenses : List EVal) : ℚ :=
  toFixed2 ((expenses.map EVal.toNumber).sum)

/-- The budgets row inserted by `POST /api/budgets`.  The computed total is
a `toFixed` string, never `undefined` nor `""`, so the
`!== undefined && !== ""` guard always stores `parseFloat` of it;
`toteutunut_menot` is the literal `0` of the parameter list. -/
def mkBudgetRow (newId uid month year : Nat) (income actualIncome : JNum)
    (expenses : List EVal) : Budget :=
  { id := newId
    user_id := uid
    kuukausi := month
    vuosi := year
    suunniteltu_tulot := income.toStored
    toteutunut_tulot := actualIncome.toStored
    suunniteltu_menot := some (plannedExpensesOf expenses)
    toteutunut_menot := some 0 }

/-- `SELECT * FROM budgets WHERE user_id = $1 AND kuukausi = $2 AND
vuosi = $3` returned at least one row. -/
def existsBudgetFor (db : DB) (uid m y : Nat) : Bool :=
  db.budgets.any (fun b => b.user_id == uid && b.kuukausi == m && b.vuosi == y)

/-- Number of stored budgets for a (user, month, year) slot. -/
def countBudgetsFor (db : DB) (uid m y : Nat) : Nat :=
  (db.budgets.filter
    (fun b => b.user_id == uid && b.kuukausi == m && b.vuosi == y)).length

/-- `POST /api/budgets`: the falsy-user-id guard, then the duplicate-period
check (row exists → 400 with `success: false` and the conflict message, no
insert), then the single INSERT; 201 with `success: true` on success.
`newId` stands for the id the store generates for the new row. -/
def createBudget (db : DB) (uid m y : Nat) (income actualIncome : JNum)
    (expenses : List EVal) (newId : Nat) : DB × Response :=
  if uid == 0 then
    (db, { status := 400, success := some false,
           error := some "Käyttäjän ID puuttuu" })
  else if existsBudgetFor db uid m y then
    (db, { status := 400, success := some false,
           error := some "Budjetti tälle kuukaudelle on jo olemassa" })
  else
    ({ db with budgets :=
        db.budgets ++ [mkBudgetRow newId uid m y income actualIncome expenses] },
     { status := 201, success := some true, error := none })

/-- The 400 reply of `POST /api/transactions` on a missing field: note it
carries only the `error` key, no `success` key. -/
def txValidationError : Response :=
  { status := 400, success := none, error := some "Kaikki kentät ovat pakollisia" }

/-- `POST /api/transactions`: `if (!budget_id || !tyyppi || summa ===
undefined || kuvaus === undefined)` → 400 and no insert; otherwise one
INSERT of the row as given (no check that `tyyppi` is one of the recognized
values, and none that the budget exists or is the caller's).  A falsy
`budget_id` is `none` or `some 0`; a falsy `tyyppi` is `none` or `some ""`;
`summa` and `kuvaus` are only checked against `undefined` (`none`). -/
def createTransaction (db : DB) (uid : Nat) (budget_id : Option Nat)
    (tyyppi : Option String) (summa : Option ℚ) (kuvaus : Option String)
    (newId : Nat) : DB × Response :=
  match budget_id, tyyppi, summa, kuvaus with
  | some bid, some ty, some s, some k =>
    if bid == 0 || ty == "" then
      (db, txValidationError)
    else
      ({ db with transactions := db.transactions ++
          [{ id := newId, budget_id := bid, user_id := uid, tyyppi := ty,
             summa := s, kuvaus := k }] },
       { status := 201, success := some true, error := none })
  | _, _, _, _ => (db, txValidationError)

/-- A field of the `PUT /api/budgets/:id` body: absent (`undefined`), an
explicit JSON `null`, or a numeric value. -/
inductive JReq where
  | undef
  | nullVal
  | num (q : ℚ)
deriving Repr, DecidableEq

/-- What the store receives for an UPDATE parameter: node-postgres
serializes both `undefined` and `null` as SQL NULL, a number as itself. -/
def JReq.stored : JReq → Option ℚ
  | .undef => none
  | .nullVal => none
  | .num q => some q

/-- `x !== null ? x : 0`: only an explicit `null` is replaced by 0; an
omitted field (`undefined`) passes through unchanged. -/
def defaultZeroIfNull : JReq → JReq
  | .nullVal => .num 0
  | v => v

/-- `PUT /api/budgets/:id`: ownership check (`SELECT id FROM budgets WHERE
id = $1 AND user_id = $2`) → 404 with only an `error` key when empty;
otherwise `UPDATE budgets SET toteutunut_tulot = $1, suunniteltu_menot =
$2, toteutunut_menot = $3 WHERE id AND user_id`, where the two expense
parameters were null-defaulted to 0 but `toteutunut_tulot` is passed raw.
The success reply has no `success` key (`message` and `budget` only). -/
def updateBudget (db : DB) (uid id : Nat)
    (toteutunut_tulot suunniteltu_menot toteutunut_menot : JReq) :
    DB × Response :=
  if db.budgets.any (fun b => b.id == id && b.user_id == uid) then
    let validPlannedExpenses := defaultZeroIfNull suunniteltu_menot
    let validActualExpenses := defaultZeroIfNull toteutunut_menot
    ({ db with budgets := db.budgets.map (fun b =>
        if b.id == id && b.user_id == uid then
          { b with toteutunut_tulot := toteutunut_tulot.stored,
                   suunniteltu_menot := validPlannedExpenses.stored,
                   toteutunut_menot := validActualExpenses.stored }
        else b) },
     { status := 200, success := none, error := none })
  else
    (db, { status := 404, success := none,
           error := some "Budjettia ei löytynyt tai ei oikeuksia" })

/-- `DELETE /api/budgets/:id`: `DELETE FROM budgets WHERE id = $1 AND
user_id = $2 RETURNING *` — no row matched → 404 with `success: false`;
otherwise the matching budgets rows are removed (the transactions table is
not touched) and the reply is 200 with `success: true`. -/
def deleteBudget (db : DB) (uid id : Nat) : DB × Response :=
  let deleted := db.budgets.filter (fun b => b.id == id && b.user_id == uid)
  if deleted.isEmpty then
    (db, { status := 404, success := some false,
           error := some "Budjettia ei löytynyt tai sinulla ei ole oikeuksia poistaa sitä" })
  else
    ({ db with budgets :=
        db.budgets.filter (fun b => !(b.id == id && b.user_id == uid)) },
     { status := 200, success := some true, error := none })

/-- `GET /api/transactions/:budgetId`: `SELECT * FROM transactions WHERE
budget_id = $1` (no ownership filtering). -/
def getTransactionsFor (db : DB) (bid : Nat) : List Transaction :=
  db.transactions.filter (fun t => t.budget_id == bid)

/-! Concrete stores used to instantiate the theorems below. -/

/-- A budget whose planned expenses (100) differ from its recorded
expenses (0): the shape every freshly created budget has. -/
def bC1 : Budget :=
  { id := 1, user_id := 1, kuukausi := 3, vuosi := 2024,
    suunniteltu_tulot := some 1000, toteutunut_tulot := some 50,
    suunniteltu_menot := some 100, toteutunut_menot := some 0 }

/-- Store holding only `bC1`, with no transactions. -/
def dbC1 : DB := { budgets := [bC1], transactions := [] }

/-- The list-endpoint row produced for `bC1`. -/
def rC1 : ListRow := listBudgetRow dbC1 bC1

/-- A budget of user 1 for April 2025. -/
def bW : Budget :=
  { id := 1, user_id := 1, kuukausi := 4, vuosi := 2025,
    suunniteltu_tulot := some 1200, toteutunut_tulot := some 1000,
    suunniteltu_menot := some 650, toteutunut_menot := some 0 }

/-- Store holding `bW` together with one income and one expense
transaction attached to it. -/
def dbW : DB :=
  { budgets := [bW],
    transactions :=
      [ { id := 1, budget_id := 1, user_id := 1, tyyppi := "tulo",
          summa := 200, kuvaus := "palkka" },
        { id := 2, budget_id := 1, user_id := 1, tyyppi := "meno",
          summa := 50, kuvaus := "ruoka" } ] }

/-- The list-endpoint row produced for `bW` in `dbW`. -/
def rW : ListRow := listBudgetRow dbW bW

/-- The detail-endpoint view produced for `bW` in `dbW`. -/
def vW : DetailView := detailView dbW bW

/-- A budget owned by user 2 (a foreign budget from user 1's point of
view). -/
def bF : Budget :=
  { id := 7, user_id := 2, kuukausi := 5, vuosi := 2025,
    suunniteltu_tulot := none, toteutunut_tulot := some 300,
    suunniteltu_menot := some 80, toteutunut_menot := some 0 }

/-- Store holding only the foreign budget `bF`. -/
def dbF : DB := { budgets := [bF], transactions := [] }

/-- Store holding `bW` and no transactions, used for the update claim. -/
def dbU : DB := { budgets := [bW], transactions := [] }

/-- Store holding `bW` and one expense transaction referencing it, used
for the deletion claim. -/
def dbD : DB :=
  { budgets := [bW],
    transactions :=
      [ { id := 3, budget_id := 1, user_id := 1, tyyppi := "meno",
          summa := 40, kuvaus := "lasku" } ] }

end BudgetApp

namespace BudgetApp

/-- C1 (code_bug): the claim says the balance (`total`) field of every
returned budget equals `actual_income - actual_expenses`.  On the list
endpoint this fails: for the stored budget `bC1` (recorded income 50,
planned expenses 100, recorded expenses 0, no transactions) the returned
row has `actual_income = 50` and `actual_expenses = 100` but `total = 50`,
because the source's `total` expression reads `budget.actual_expenses`
from the raw SQL row (the `toteutunut_menot` column) instead of the
recomputed `actual_expenses` field; the detail endpoint returns no
balance field at all. -/
theorem C1_list_balance_mismatch :
    getBudgets dbC1 1 = [rC1] ∧
    rC1.actual_income = 50 ∧ rC1.actual_expenses = 100 ∧ rC1.total = 50 ∧
    rC1.total ≠ rC1.actual_income - rC1.actual_expenses := by
  refine ⟨by simp [getBudgets, dbC1, bC1, List.insertionSort,
    List.orderedInsert, rC1], ?_, ?_, ?_, ?_⟩ <;>
    norm_num [rC1, listBudgetRow, txSum, dbC1, bC1]

/-- C2: every row of the list response and every detail response comes
from a stored budget of the caller, and its `actual_income` equals the
stored recorded income (`toteutunut_tulot`, 0 when NULL) plus the sum of
that budget's income ("tulo") transactions, while its `actual_expenses`
equals the stored planned expenses (`suunniteltu_menot`, 0 when NULL)
plus the sum of that budget's expense ("meno") transactions. -/
theorem C2_actuals (db : DB) (uid : Nat) (r : ListRow) (id : Nat) (v : DetailView)
    (hr : r ∈ getBudgets db uid) (hv : getBudgetById db uid id = some v) :
    (∃ b, b ∈ db.budgets ∧ b.user_id = uid ∧ r.id = b.id ∧
      r.actual_income = b.toteutunut_tulot.getD 0 + txSum db b.id "tulo" ∧
      r.actual_expenses = b.suunniteltu_menot.getD 0 + txSum db b.id "meno") ∧
    (∃ b, b ∈ db.budgets ∧ b.user_id = uid ∧ b.id = id ∧
      v.actual_income = b.toteutunut_tulot.getD 0 + txSum db b.id "tulo" ∧
      v.actual_expenses = b.suunniteltu_menot.getD 0 + txSum db b.id "meno") := by
  constructor
  · rw [getBudgets, List.mem_map] at hr
    obtain ⟨b, hb, hrb⟩ := hr
    rw [List.mem_insertionSort, List.mem_filter] at hb
    refine ⟨b, hb.1, by simpa using hb.2, ?_, ?_, ?_⟩ <;>
      simp [← hrb, listBudgetRow]
  · rw [getBudgetById, Option.map_eq_some'] at hv
    obtain ⟨b, hb, hvb⟩ := hv
    have hmem : b ∈ db.budgets.filter (fun b => b.id == id && b.user_id == uid) :=
      List.mem_of_mem_head? (by simp [hb])
    rw [List.mem_filter] at hmem
    have hids : b.id = id ∧ b.user_id = uid := by simpa using hmem.2
    refine ⟨b, hmem.1, hids.2, hids.1, ?_, ?_⟩ <;>
      simp [← hvb, detailView]

/-- Witness for C2: in the store `dbW` (budget `bW` with recorded income
1000 and planned expenses 650, one income transaction of 200 and one
expense transaction of 50) both the list row and the detail view satisfy
the reconciliation rule. -/
theorem C2_actuals_witness :
    (rW ∈ getBudgets dbW 1) ∧ (getBudgetById dbW 1 1 = some vW) ∧
    ((∃ b, b ∈ dbW.budgets ∧ b.user_id = 1 ∧ rW.id = b.id ∧
      rW.actual_income = b.toteutunut_tulot.getD 0 + txSum dbW b.id "tulo" ∧
      rW.actual_expenses = b.suunniteltu_menot.getD 0 + txSum dbW b.id "meno") ∧
    (∃ b, b ∈ dbW.budgets ∧ b.user_id = 1 ∧ b.id = 1 ∧
      vW.actual_income = b.toteutunut_tulot.getD 0 + txSum dbW b.id "tulo" ∧
      vW.actual_expenses = b.suunniteltu_menot.getD 0 + txSum dbW b.id "meno")) := by
  have h1 : rW ∈ getBudgets dbW 1 := by
    simp [getBudgets, dbW, bW, List.insertionSort, List.orderedInsert, rW]
  have h2 : getBudgetById dbW 1 1 = some vW := by
    simp [getBudgetById, dbW, bW, vW]
  exact ⟨h1, h2, C2_actuals dbW 1 rW 1 vW h1 h2⟩

/-- C3: when an active budget already exists for the caller's
(user, month, year) slot, a second create call answers 400 with
`success: false` and the conflict message, writes nothing (the whole
store is returned unchanged), and the number of budgets stored for that
slot is unchanged. -/
theorem C3_duplicate_create_conflict (db : DB) (uid m y : Nat)
    (income actualIncome : JNum) (expenses : List EVal) (newId : Nat)
    (huid : uid ≠ 0) (h : 0 < countBudgetsFor db uid m y) :
    createBudget db uid m y income actualIncome expenses newId =
      (db, { status := 400, success := some false,
             error := some "Budjetti tälle kuukaudelle on jo olemassa" }) ∧
    countBudgetsFor
      (createBudget db uid m y income actualIncome expenses newId).1 uid m y =
      countBudgetsFor db uid m y := by
  have hex : existsBudgetFor db uid m y = true := by
    rw [countBudgetsFor, List.length_pos] at h
    obtain ⟨b, hb⟩ := List.exists_mem_of_ne_nil _ h
    rw [List.mem_filter] at hb
    rw [existsBudgetFor, List.any_eq_true]
    exact ⟨b, hb.1, hb.2⟩
  have huid2 : (uid == 0) = false := beq_eq_false_iff_ne.mpr huid
  constructor
  · simp [createBudget, huid2, hex]
  · simp [createBudget, huid2, hex]

/-- Witness for C3: `dbW` already holds user 1's budget for April 2025,
so a second create for that slot is rejected and the store keeps exactly
that one budget. -/
theorem C3_duplicate_create_conflict_witness :
    (1 : Nat) ≠ 0 ∧ 0 < countBudgetsFor dbW 1 4 2025 ∧
    (createBudget dbW 1 4 2025 JNum.undef JNum.undef [] 9 =
      (dbW, { status := 400, success := some false,
              error := some "Budjetti tälle kuukaudelle on jo olemassa" }) ∧
     countBudgetsFor (createBudget dbW 1 4 2025 JNum.undef JNum.undef [] 9).1 1 4 2025 =
       countBudgetsFor dbW 1 4 2025) := by
  have h1 : (1 : Nat) ≠ 0 := by simp
  have h2 : 0 < countBudgetsFor dbW 1 4 2025 := by
    simp [countBudgetsFor, dbW, bW]
  exact ⟨h1, h2,
    C3_duplicate_create_conflict dbW 1 4 2025 JNum.undef JNum.undef [] 9 h1 h2⟩

/-- C4: when the budget carrying the requested id belongs to a different
user (ids being unique, no stored budget with that id belongs to the
caller), both the update and the delete handler answer 404 with the
not-found-or-no-rights message and return the store unchanged, so every
stored field of the target budget is preserved. -/
theorem C4_foreign_budget_mutation (db : DB) (uid id : Nat) (b : Budget)
    (v1 v2 v3 : JReq)
    (hb : b ∈ db.budgets) (hid : b.id = id) (hforeign : b.user_id ≠ uid)
    (huniq : ∀ c ∈ db.budgets, c.id = id → c.user_id = b.user_id) :
    updateBudget db uid id v1 v2 v3 =
      (db, { status := 404, success := none,
             error := some "Budjettia ei löytynyt tai ei oikeuksia" }) ∧
    deleteBudget db uid id =
      (db, { status := 404, success := some false,
             error := some "Budjettia ei löytynyt tai sinulla ei ole oikeuksia poistaa sitä" }) := by
  have hnone : ∀ c ∈ db.budgets, ¬(c.id == id && c.user_id == uid) = true := by
    intro c hc hcc
    simp only [Bool.and_eq_true, beq_iff_eq] at hcc
    exact hforeign ((huniq c hc hcc.1).symm.trans hcc.2)
  have hany : (db.budgets.any fun c => c.id == id && c.user_id == uid) = false := by
    rw [List.any_eq_false]; exact hnone
  have hfil : db.budgets.filter (fun c => c.id == id && c.user_id == uid) = [] := by
    rw [List.filter_eq_nil_iff]; exact hnone
  constructor
  · simp [updateBudget, hany]
  · simp [deleteBudget, hfil]

/-- Witness for C4: budget `bF` (id 7) belongs to user 2; user 1's update
and delete calls against id 7 both fail with 404 and leave the store as
it was. -/
theorem C4_foreign_budget_mutation_witness :
    bF ∈ dbF.budgets ∧ bF.id = 7 ∧ bF.user_id ≠ 1 ∧
    (∀ c ∈ dbF.budgets, c.id = 7 → c.user_id = bF.user_id) ∧
    (updateBudget dbF 1 7 JReq.undef JReq.undef JReq.undef =
      (dbF, { status := 404, success := none,
              error := some "Budjettia ei löytynyt tai ei oikeuksia" }) ∧
     deleteBudget dbF 1 7 =
      (dbF, { status := 404, success := some false,
              error := some "Budjettia ei löytynyt tai sinulla ei ole oikeuksia poistaa sitä" })) := by
  have h1 : bF ∈ dbF.budgets := by simp [dbF]
  have h2 : bF.id = 7 := rfl
  have h3 : bF.user_id ≠ 1 := by simp [bF]
  have h4 : ∀ c ∈ dbF.budgets, c.id = 7 → c.user_id = bF.user_id := by
    intro c hc _
    simp only [dbF, List.mem_singleton] at hc
    rw [hc]
  exact ⟨h1, h2, h3, h4,
    C4_foreign_budget_mutation dbF 1 7 bF JReq.undef JReq.undef JReq.undef h1 h2 h3 h4⟩

end BudgetApp

namespace BudgetApp

/-- C5: a successful create appends exactly one budget row whose stored
planned expenses (`suunniteltu_menot`) equal the sum of the supplied
expense-breakdown values — each empty or non-numeric value counted as
0 — rounded to two decimal places, and whose stored recorded expenses
(`toteutunut_menot`) are initialized to 0; in particular an empty
breakdown stores planned expenses 0. -/
theorem C5_planned_expenses_create (db : DB) (uid m y : Nat)
    (income actualIncome : JNum) (expenses : List EVal) (newId : Nat)
    (huid : uid ≠ 0) (h : existsBudgetFor db uid m y = false) :
    (createBudget db uid m y income actualIncome expenses newId).1.budgets =
      db.budgets ++ [mkBudgetRow newId uid m y income actualIncome expenses] ∧
    (createBudget db uid m y income actualIncome expenses newId).2 =
      { status := 201, success := some true, error := none } ∧
    (mkBudgetRow newId uid m y income actualIncome expenses).suunniteltu_menot =
      some (toFixed2 ((expenses.map EVal.toNumber).sum)) ∧
    (mkBudgetRow newId uid m y income actualIncome expenses).toteutunut_menot = some 0 ∧
    (expenses = [] →
      (mkBudgetRow newId uid m y income actualIncome expenses).suunniteltu_menot =
        some 0) := by
  have huid2 : (uid == 0) = false := beq_eq_false_iff_ne.mpr huid
  refine ⟨by simp [createBudget, huid2, h], by simp [createBudget, huid2, h],
    rfl, rfl, ?_⟩
  intro he
  subst he
  norm_num [mkBudgetRow, plannedExpensesOf, toFixed2]

/-- Witness for C5, the spec's own scenario: a breakdown of 500 and 150.5
(= 301/2) plus an empty and a non-numeric value stores planned expenses
650.50 (= 1301/2) and recorded expenses 0. -/
theorem C5_planned_expenses_create_witness :
    (1 : Nat) ≠ 0 ∧ existsBudgetFor dbF 1 3 2024 = false ∧
    plannedExpensesOf
      [EVal.numVal 500, EVal.numVal (301/2), EVal.emptyVal, EVal.nonNumeric] = 1301/2 ∧
    ((createBudget dbF 1 3 2024 (JNum.val 1000) JNum.undef
        [EVal.numVal 500, EVal.numVal (301/2), EVal.emptyVal, EVal.nonNumeric] 9).1.budgets =
      dbF.budgets ++ [mkBudgetRow 9 1 3 2024 (JNum.val 1000) JNum.undef
        [EVal.numVal 500, EVal.numVal (301/2), EVal.emptyVal, EVal.nonNumeric]] ∧
    (createBudget dbF 1 3 2024 (JNum.val 1000) JNum.undef
        [EVal.numVal 500, EVal.numVal (301/2), EVal.emptyVal, EVal.nonNumeric] 9).2 =
      { status := 201, success := some true, error := none } ∧
    (mkBudgetRow 9 1 3 2024 (JNum.val 1000) JNum.undef
        [EVal.numVal 500, EVal.numVal (301/2), EVal.emptyVal, EVal.nonNumeric]).suunniteltu_menot =
      some (toFixed2 (([EVal.numVal 500, EVal.numVal (301/2), EVal.emptyVal,
        EVal.nonNumeric].map EVal.toNumber).sum)) ∧
    (mkBudgetRow 9 1 3 2024 (JNum.val 1000) JNum.undef
        [EVal.numVal 500, EVal.numVal (301/2), EVal.emptyVal, EVal.nonNumeric]).toteutunut_menot =
      some 0 ∧
    (([EVal.numVal 500, EVal.numVal (301/2), EVal.emptyVal, EVal.nonNumeric] : List EVal) = [] →
      (mkBudgetRow 9 1 3 2024 (JNum.val 1000) JNum.undef
        [EVal.numVal 500, EVal.numVal (301/2), EVal.emptyVal, EVal.nonNumeric]).suunniteltu_menot =
        some 0)) := by
  have h1 : (1 : Nat) ≠ 0 := by simp
  have h2 : existsBudgetFor dbF 1 3 2024 = false := by
    simp [existsBudgetFor, dbF, bF]
  have h3 : plannedExpensesOf
      [EVal.numVal 500, EVal.numVal (301/2), EVal.emptyVal, EVal.nonNumeric] = 1301/2 := by
    norm_num [plannedExpensesOf, toFixed2, round_eq, EVal.toNumber]
  exact ⟨h1, h2, h3, C5_planned_expenses_create dbF 1 3 2024 (JNum.val 1000) JNum.undef
    [EVal.numVal 500, EVal.numVal (301/2), EVal.emptyVal, EVal.nonNumeric] 9 h1 h2⟩

/-- Counterexample for C6: the missing-field reply of the
transaction-creation handler is an error response (status 400 with an
error message) that does not carry `success: false` — its JSON body has
no `success` key at all, refuting the claim that every error response of
the budget and transaction operations carries one. -/
theorem C6_error_shape_cex :
    (createTransaction { budgets := [], transactions := [] } 1 (some 1) none
      (some 10) (some "ruoka") 5).2.status = 400 ∧
    (createTransaction { budgets := [], transactions := [] } 1 (some 1) none
      (some 10) (some "ruoka") 5).2.error = some "Kaikki kentät ovat pakollisia" ∧
    (createTransaction { budgets := [], transactions := [] } 1 (some 1) none
      (some 10) (some "ruoka") 5).2.success ≠ some false := by
  refine ⟨?_, ?_, ?_⟩ <;> simp [createTransaction, txValidationError]

/-- C6 as amended: every error response of the budget and transaction
mutation handlers carries a human-readable error message, but only the
budget-create and budget-delete errors carry `success: false`; the
budget-update 404 and the transaction-validation 400 carry only the
error message, with no `success` key. -/
theorem C6_error_responses_amended
    (db1 : DB) (uid1 m y : Nat) (inc ainc : JNum) (exps : List EVal) (nid1 : Nat)
    (db2 : DB) (uid2 id2 : Nat) (v1 v2 v3 : JReq)
    (db3 : DB) (uid3 id3 : Nat)
    (db4 : DB) (uid4 nid4 : Nat) (bid : Option Nat) (ty : Option String)
    (s : Option ℚ) (k : Option String)
    (h1a : uid1 ≠ 0) (h1b : existsBudgetFor db1 uid1 m y = true)
    (h2 : ∀ b ∈ db2.budgets, ¬(b.id = id2 ∧ b.user_id = uid2))
    (h3 : ∀ b ∈ db3.budgets, ¬(b.id = id3 ∧ b.user_id = uid3))
    (h4 : ty = none) :
    (createBudget db1 uid1 m y inc ainc exps nid1).2 =
      { status := 400, success := some false,
        error := some "Budjetti tälle kuukaudelle on jo olemassa" } ∧
    (updateBudget db2 uid2 id2 v1 v2 v3).2 =
      { status := 404, success := none,
        error := some "Budjettia ei löytynyt tai ei oikeuksia" } ∧
    (deleteBudget db3 uid3 id3).2 =
      { status := 404, success := some false,
        error := some "Budjettia ei löytynyt tai sinulla ei ole oikeuksia poistaa sitä" } ∧
    (createTransaction db4 uid4 bid ty s k nid4).2 =
      { status := 400, success := none,
        error := some "Kaikki kentät ovat pakollisia" } := by
  have h1a2 : (uid1 == 0) = false := beq_eq_false_iff_ne.mpr h1a
  have h2b : (db2.budgets.any fun c => c.id == id2 && c.user_id == uid2) = false := by
    rw [List.any_eq_false]
    intro c hc hcc
    simp only [Bool.and_eq_true, beq_iff_eq] at hcc
    exact h2 c hc hcc
  have h3b : db3.budgets.filter (fun c => c.id == id3 && c.user_id == uid3) = [] := by
    rw [List.filter_eq_nil_iff]
    intro c hc hcc
    simp only [Bool.and_eq_true, beq_iff_eq] at hcc
    exact h3 c hc hcc
  subst h4
  refine ⟨by simp [createBudget, h1a2, h1b], by simp [updateBudget, h2b],
    by simp [deleteBudget, h3b], ?_⟩
  cases bid <;> cases s <;> cases k <;> simp [createTransaction, txValidationError]

/-- Witness for the amended C6: a conflicting create on `dbW`, an update
and a delete against the foreign budget of `dbF`, and a transaction
create with a missing type, each yielding the stated error shape. -/
theorem C6_error_responses_amended_witness :
    (1 : Nat) ≠ 0 ∧ existsBudgetFor dbW 1 4 2025 = true ∧
    (∀ b ∈ dbF.budgets, ¬(b.id = 1 ∧ b.user_id = 1)) ∧
    (∀ b ∈ dbF.budgets, ¬(b.id = 1 ∧ b.user_id = 1)) ∧
    ((createBudget dbW 1 4 2025 JNum.undef JNum.undef [] 9).2 =
      { status := 400, success := some false,
        error := some "Budjetti tälle kuukaudelle on jo olemassa" } ∧
    (updateBudget dbF 1 1 JReq.undef JReq.undef JReq.undef).2 =
      { status := 404, success := none,
        error := some "Budjettia ei löytynyt tai ei oikeuksia" } ∧
    (deleteBudget dbF 1 1).2 =
      { status := 404, success := some false,
        error := some "Budjettia ei löytynyt tai sinulla ei ole oikeuksia poistaa sitä" } ∧
    (createTransaction dbF 1 (some 1) none (some 10) (some "ruoka") 5).2 =
      { status := 400, success := none,
        error := some "Kaikki kentät ovat pakollisia" }) := by
  have h1 : (1 : Nat) ≠ 0 := by simp
  have h2 : existsBudgetFor dbW 1 4 2025 = true := by simp [existsBudgetFor, dbW, bW]
  have h3 : ∀ b ∈ dbF.budgets, ¬(b.id = 1 ∧ b.user_id = 1) := by
    intro b hb hc
    simp only [dbF, List.mem_singleton] at hb
    rw [hb] at hc
    simp [bF] at hc
  exact ⟨h1, h2, h3, h3,
    C6_error_responses_amended dbW 1 4 2025 JNum.undef JNum.undef [] 9
      dbF 1 1 JReq.undef JReq.undef JReq.undef dbF 1 1 dbF 1 5
      (some 1) none (some 10) (some "ruoka") h1 h2 h3 h3 rfl⟩

/-- C7: whenever any of budget_id, type, amount or description is absent
from the transaction-creation body, the handler answers 400 with the
all-fields-required message and the store — in particular the
transactions table — is returned unchanged. -/
theorem C7_missing_field_validation (db : DB) (uid : Nat) (bid : Option Nat)
    (ty : Option String) (s : Option ℚ) (k : Option String) (newId : Nat)
    (h : bid = none ∨ ty = none ∨ s = none ∨ k = none) :
    createTransaction db uid bid ty s k newId = (db, txValidationError) := by
  cases bid <;> cases ty <;> cases s <;> cases k <;>
    simp_all [createTransaction, txValidationError]

/-- Witness for C7: a request with a missing amount is rejected with the
validation error and writes nothing. -/
theorem C7_missing_field_validation_witness :
    ((some 3 : Option Nat) = none ∨ (some "tulo" : Option String) = none ∨
      (none : Option ℚ) = none ∨ (some "palkka" : Option String) = none) ∧
    createTransaction dbF 1 (some 3) (some "tulo") none (some "palkka") 8 =
      (dbF, txValidationError) := by
  have h : (some 3 : Option Nat) = none ∨ (some "tulo" : Option String) = none ∨
      (none : Option ℚ) = none ∨ (some "palkka" : Option String) = none := by
    right; right; left; rfl
  exact ⟨h,
    C7_missing_field_validation dbF 1 (some 3) (some "tulo") none (some "palkka") 8 h⟩

/-- Counterexample for C8: a transaction whose type is present but is
"siirto" — neither of the two recognized values — is not rejected: the
handler answers 201 and writes the row with the unrecognized type
verbatim, refuting the claimed validation error. -/
theorem C8_unrecognized_type_cex :
    (createTransaction { budgets := [], transactions := [] } 1 (some 1)
      (some "siirto") (some 10) (some "muu") 7).2.status = 201 ∧
    (createTransaction { budgets := [], transactions := [] } 1 (some 1)
      (some "siirto") (some 10) (some "muu") 7).1.transactions =
      [{ id := 7, budget_id := 1, user_id := 1, tyyppi := "siirto",
         summa := 10, kuvaus := "muu" }] := by
  constructor <;> simp [createTransaction]

/-- C8 as amended: a present, non-empty type value is never validated
against the recognized set — the handler answers 201 and appends the row
with the given type string as-is; when that type is neither "tulo" nor
"meno" the new row contributes to neither the income nor the expense sum
of any budget. -/
theorem C8_unrecognized_type_amended (db : DB) (uid bid : Nat) (ty : String)
    (s : ℚ) (k : String) (newId : Nat)
    (hbid : bid ≠ 0) (hty : ty ≠ "") (ht1 : ty ≠ "tulo") (ht2 : ty ≠ "meno") :
    (createTransaction db uid (some bid) (some ty) (some s) (some k) newId).2 =
      { status := 201, success := some true, error := none } ∧
    (createTransaction db uid (some bid) (some ty) (some s) (some k) newId).1.transactions =
      db.transactions ++ [{ id := newId, budget_id := bid, user_id := uid,
                            tyyppi := ty, summa := s, kuvaus := k }] ∧
    (∀ b2, txSum (createTransaction db uid (some bid) (some ty) (some s) (some k) newId).1
        b2 "tulo" = txSum db b2 "tulo" ∧
      txSum (createTransaction db uid (some bid) (some ty) (some s) (some k) newId).1
        b2 "meno" = txSum db b2 "meno") := by
  have hg : (bid == 0 || ty == "") = false := by
    simp [hbid, hty]
  have h1 : (ty == "tulo") = false := beq_eq_false_iff_ne.mpr ht1
  have h2 : (ty == "meno") = false := beq_eq_false_iff_ne.mpr ht2
  refine ⟨by simp [createTransaction, hg], by simp [createTransaction, hg], ?_⟩
  intro b2
  constructor <;>
    simp [createTransaction, hg, txSum, List.filter_append, List.filter_cons, h1, h2]

/-- Witness for the amended C8: inserting a "siirto" transaction into
`dbW` succeeds and leaves both aggregated sums of every budget
unchanged. -/
theorem C8_unrecognized_type_amended_witness :
    (1 : Nat) ≠ 0 ∧ ("siirto" : String) ≠ "" ∧ ("siirto" : String) ≠ "tulo" ∧
    ("siirto" : String) ≠ "meno" ∧
    ((createTransaction dbW 1 (some 1) (some "siirto") (some 10) (some "muu") 9).2 =
      { status := 201, success := some true, error := none } ∧
    (createTransaction dbW 1 (some 1) (some "siirto") (some 10) (some "muu") 9).1.transactions =
      dbW.transactions ++ [{ id := 9, budget_id := 1, user_id := 1, tyyppi := "siirto",
                             summa := 10, kuvaus := "muu" }] ∧
    (∀ b2, txSum (createTransaction dbW 1 (some 1) (some "siirto") (some 10) (some "muu") 9).1
        b2 "tulo" = txSum dbW b2 "tulo" ∧
      txSum (createTransaction dbW 1 (some 1) (some "siirto") (some 10) (some "muu") 9).1
        b2 "meno" = txSum dbW b2 "meno")) := by
  have h0 : (1 : Nat) ≠ 0 := by simp
  have h1 : ("siirto" : String) ≠ "" := by simp
  have h2 : ("siirto" : String) ≠ "tulo" := by simp
  have h3 : ("siirto" : String) ≠ "meno" := by simp
  exact ⟨h0, h1, h2, h3,
    C8_unrecognized_type_amended dbW 1 1 "siirto" 10 "muu" 9 h0 h1 h2 h3⟩

/-- C9: on an owned budget (ids unique), the update handler always
overwrites the stored recorded income with the request's value as the
store receives it: an omitted field leads to NULL (not the previous
value, not 0), while the two expense fields are defaulted to 0 exactly
when the request carries an explicit null (an omitted expense field also
ends up NULL, since only `!== null` is checked). -/
theorem C9_recorded_income_overwrite (db : DB) (uid id : Nat) (b : Budget)
    (tt sm tm : JReq)
    (hb : b ∈ db.budgets) (hid : b.id = id) (hown : b.user_id = uid)
    (huniq : ∀ c ∈ db.budgets, c.id = id → c = b) :
    (updateBudget db uid id tt sm tm).2.status = 200 ∧
    ∀ c ∈ (updateBudget db uid id tt sm tm).1.budgets, c.id = id →
      (c.toteutunut_tulot = tt.stored ∧
       (tt = JReq.undef → c.toteutunut_tulot = none) ∧
       (sm = JReq.undef → c.suunniteltu_menot = none) ∧
       (sm = JReq.nullVal → c.suunniteltu_menot = some 0) ∧
       (tm = JReq.nullVal → c.toteutunut_menot = some 0)) := by
  have hcond : (b.id == id && b.user_id == uid) = true := by
    simp [hid, hown]
  have hany : (db.budgets.any fun c => c.id == id && c.user_id == uid) = true := by
    rw [List.any_eq_true]
    exact ⟨b, hb, hcond⟩
  constructor
  · simp [updateBudget, hany]
  · intro c hc hcid
    simp only [updateBudget, hany, if_true, List.mem_map] at hc
    obtain ⟨b0, hb0, hfb0⟩ := hc
    by_cases hm : (b0.id == id && b0.user_id == uid) = true
    · rw [hm] at hfb0
      simp only [if_true] at hfb0
      subst hfb0
      refine ⟨rfl, ?_, ?_, ?_, ?_⟩
      · intro h; subst h; rfl
      · intro h; subst h; rfl
      · intro h; subst h; rfl
      · intro h; subst h; rfl
    · rw [Bool.not_eq_true] at hm
      rw [hm] at hfb0
      simp only [Bool.false_eq_true, if_false] at hfb0
      subst hfb0
      have heq : b0 = b := huniq b0 hb0 hcid
      subst heq
      rw [hcond] at hm
      cases hm

/-- Witness for C9: updating `bW` with recorded income omitted, planned
expenses explicitly null and recorded expenses 25 stores NULL recorded
income and planned expenses 0. -/
theorem C9_recorded_income_overwrite_witness :
    bW ∈ dbU.budgets ∧ bW.id = 1 ∧ bW.user_id = 1 ∧
    (∀ c ∈ dbU.budgets, c.id = 1 → c = bW) ∧
    ((updateBudget dbU 1 1 JReq.undef JReq.nullVal (JReq.num 25)).2.status = 200 ∧
    ∀ c ∈ (updateBudget dbU 1 1 JReq.undef JReq.nullVal (JReq.num 25)).1.budgets,
      c.id = 1 →
      (c.toteutunut_tulot = JReq.undef.stored ∧
       (JReq.undef = JReq.undef → c.toteutunut_tulot = none) ∧
       (JReq.nullVal = JReq.undef → c.suunniteltu_menot = none) ∧
       (JReq.nullVal = JReq.nullVal → c.suunniteltu_menot = some 0) ∧
       (JReq.num 25 = JReq.nullVal → c.toteutunut_menot = some 0))) := by
  have h1 : bW ∈ dbU.budgets := by simp [dbU]
  have h2 : bW.id = 1 := rfl
  have h3 : bW.user_id = 1 := rfl
  have h4 : ∀ c ∈ dbU.budgets, c.id = 1 → c = bW := by
    intro c hc _
    simpa [dbU] using hc
  exact ⟨h1, h2, h3, h4,
    C9_recorded_income_overwrite dbU 1 1 bW JReq.undef JReq.nullVal (JReq.num 25)
      h1 h2 h3 h4⟩

/-- C10: a successful budget deletion answers 200, leaves the
transactions table exactly as it was, and the transactions listed for
any budget id — including the deleted one — are unchanged. -/
theorem C10_delete_preserves_transactions (db : DB) (uid id : Nat)
    (h : ∃ b, b ∈ db.budgets ∧ b.id = id ∧ b.user_id = uid) :
    (deleteBudget db uid id).2.status = 200 ∧
    (deleteBudget db uid id).1.transactions = db.transactions ∧
    ∀ bid, getTransactionsFor (deleteBudget db uid id).1 bid =
      getTransactionsFor db bid := by
  obtain ⟨b, hb, hbid, hbu⟩ := h
  have hmem : b ∈ db.budgets.filter (fun c => c.id == id && c.user_id == uid) := by
    rw [List.mem_filter]
    exact ⟨hb, by simp [hbid, hbu]⟩
  have hne : (db.budgets.filter fun c => c.id == id && c.user_id == uid).isEmpty = false :=
    List.isEmpty_eq_false.mpr (List.ne_nil_of_mem hmem)
  refine ⟨?_, ?_, ?_⟩
  · simp [deleteBudget, hne]
  · simp [deleteBudget, hne]
  · intro bid
    simp [deleteBudget, hne, getTransactionsFor]

/-- Witness for C10: deleting budget 1 from `dbD` (which holds one
expense transaction referencing it) succeeds and the transaction is
still listed for budget id 1 afterwards. -/
theorem C10_delete_preserves_transactions_witness :
    (∃ b, b ∈ dbD.budgets ∧ b.id = 1 ∧ b.user_id = 1) ∧
    ((deleteBudget dbD 1 1).2.status = 200 ∧
    (deleteBudget dbD 1 1).1.transactions = dbD.transactions ∧
    ∀ bid, getTransactionsFor (deleteBudget dbD 1 1).1 bid =
      getTransactionsFor dbD bid) := by
  have h : ∃ b, b ∈ dbD.budgets ∧ b.id = 1 ∧ b.user_id = 1 :=
    ⟨bW, by simp [dbD], rfl, rfl⟩
  exact ⟨h, C10_delete_preserves_transactions dbD 1 1 h⟩

end BudgetApp
